import Mathlib

/-!
# CatUI.Native: window creation and EGL context set-up

A shallow embedding of `src/CatUI.Native/windowing.cpp` and
`src/CatUI.Native/egl_context_manager.cpp`.

* Pointers and opaque handles are natural numbers, `0` being `nullptr`.
* The windowing library (GLFW) and the graphics-context API (EGL) are external.
  Their answers are given by a `Library` record of functions of the history of
  calls made so far, and every call the bridge makes is appended, together with
  the value the library returned, to the history kept in the `World`.
* C++ `int` values are integers; `&` on them is `Int.land` (two's complement).
* A C++ `float` is represented by its IEEE-754 binary32 bit pattern.
-/

namespace CatUI

/-! ## Values -/

/-- A pointer-sized value: an address or an opaque handle. -/
abbrev Ptr := Nat

/-- The null pointer. -/
def nullptr : Ptr := 0

/-- A C++ `float`, given by its IEEE-754 binary32 bit pattern. -/
abbrev Float32 := Nat

/-- The bit pattern of `1.0f`. It is the only binary32 value that compares equal
to `1`, and no NaN compares equal to anything. -/
def float32One : Float32 := 0x3F800000

/-- The bit pattern of `0.5f`. -/
def float32Half : Float32 := 0x3F000000

/-! ## Constants of `windowing.cpp` -/

def WINDOW_MODE_WINDOWED : Int := 0
def WINDOW_MODE_MINIMIZED : Int := 0b1
def WINDOW_MODE_MAXIMIZED : Int := 0b10
def WINDOW_MODE_FULLSCREEN : Int := 0b11
def WINDOW_MODE_EXCLUSIVE_FULLSCREEN : Int := 0b100

def WINDOW_HINT_RESIZABLE : Int := 8
def WINDOW_HINT_VISIBLE : Int := 16
def WINDOW_HINT_DECORATED : Int := 32
def WINDOW_HINT_DPI_AWARE : Int := 64
def WINDOW_HINT_FOCUSED : Int := 128

def WINDOW_HINT_ALWAYS_ON_TOP : Int := 256
def WINDOW_TRANSPARENT_FRAMEBUFFER : Int := 512

/-! ## Names and constants of the external libraries -/

def GLFW_TRUE : Int := 1
def GLFW_FALSE : Int := 0
def GLFW_NO_API : Int := 0

/-- Platform identifiers of `glfw3.h`. -/
def GLFW_PLATFORM_WIN32 : Int := 0x00060001
def GLFW_PLATFORM_COCOA : Int := 0x00060002
def GLFW_PLATFORM_WAYLAND : Int := 0x00060003
def GLFW_PLATFORM_X11 : Int := 0x00060004

/-- The window hints `createWindow` names, by their `GLFW_` macro. -/
inductive GlfwHint where
  | CLIENT_API | STEREO | COCOA_GRAPHICS_SWITCHING | COCOA_RETINA_FRAMEBUFFER
  | FOCUS_ON_SHOW | RESIZABLE | VISIBLE | DECORATED | SCALE_TO_MONITOR | FOCUSED
  | FLOATING | TRANSPARENT_FRAMEBUFFER | MAXIMIZED
  | RED_BITS | GREEN_BITS | BLUE_BITS | REFRESH_RATE
  deriving DecidableEq

/-- The fields of `GLFWvidmode`. -/
structure GLFWvidmode where
  width : Int
  height : Int
  redBits : Int
  greenBits : Int
  blueBits : Int
  refreshRate : Int
  deriving DecidableEq

def EGL_NO_DISPLAY : Ptr := 0
def EGL_NO_CONTEXT : Ptr := 0
def EGL_NO_SURFACE : Ptr := 0
def EGL_DEFAULT_DISPLAY : Ptr := 0

/-- The EGL tokens used in attribute lists, by their macro name, and plain numbers. -/
inductive EglAttrib where
  | PLATFORM_ANGLE_ANGLE
  | PLATFORM_ANGLE_TYPE_ANGLE | PLATFORM_ANGLE_TYPE_DEFAULT_ANGLE
  | PLATFORM_ANGLE_MAX_VERSION_MAJOR_ANGLE | PLATFORM_ANGLE_MAX_VERSION_MINOR_ANGLE
  | SURFACE_TYPE | WINDOW_BIT | RENDERABLE_TYPE | OPENGL_ES2_BIT
  | CONTEXT_CLIENT_VERSION | NONE
  | num (n : Int)
  deriving DecidableEq

/-! ## Calls into the libraries -/

/-- One call into GLFW or EGL, with its arguments and, where the bridge reads
it, the value the library returned (`ret`). -/
inductive Call where
  | glfwGetPrimaryMonitor (ret : Ptr)
  | glfwWindowHint (hint : GlfwHint) (value : Int)
  | glfwGetVideoMode (monitor : Ptr) (ret : Option GLFWvidmode)
  | glfwCreateWindow (width height : Int) (title : String) (monitor share : Ptr) (ret : Ptr)
  | glfwIconifyWindow (window : Ptr)
  | glfwGetPlatform (ret : Int)
  | glfwGetWin32Window (window : Ptr) (ret : Ptr)
  | glfwSetWindowOpacity (window : Ptr) (opacity : Float32)
  | glfwGetWindowOpacity (window : Ptr) (ret : Float32)
  | glfwSetWindowIcon (window : Ptr) (count : Int) (images : Ptr)
  | eglGetPlatformDisplay (platform : EglAttrib) (nativeDisplay : Ptr)
      (attribList : List EglAttrib) (ret : Ptr)
  | eglInitialize (dpy major minor : Ptr) (ret : Bool)
  | eglChooseConfig (dpy : Ptr) (attribList : List EglAttrib) (configSize : Int)
      (ret : Bool) (config : Ptr) (numConfig : Int)
  | eglCreateContext (dpy config shareContext : Ptr) (attribList : List EglAttrib) (ret : Ptr)
  | eglCreateWindowSurface (dpy config win attribList : Ptr) (ret : Ptr)
  | eglMakeCurrent (dpy draw read ctx : Ptr) (ret : Bool)
  | eglDestroySurface (dpy surface : Ptr)
  | eglDestroyContext (dpy ctx : Ptr)
  deriving DecidableEq

/-- The answers of the external libraries. Each answer may depend on every call
made before it (the first argument) and on the arguments of the call.
`platform` is what `glfwGetPlatform` reports: the platform selected when the
library was initialised. -/
structure Library where
  platform : Int
  glfwGetPrimaryMonitor : List Call → Ptr
  glfwGetVideoMode : List Call → Ptr → Option GLFWvidmode
  glfwCreateWindow : List Call → Int → Int → String → Ptr → Ptr → Ptr
  glfwGetWin32Window : List Call → Ptr → Ptr
  glfwGetWindowOpacity : List Call → Ptr → Float32
  eglGetPlatformDisplay : List Call → EglAttrib → Ptr → List EglAttrib → Ptr
  eglInitialize : List Call → Ptr → Ptr → Ptr → Bool
  eglChooseConfig : List Call → Ptr → List EglAttrib → Int → Bool × Ptr × Int
  eglCreateContext : List Call → Ptr → Ptr → Ptr → List EglAttrib → Ptr
  eglCreateWindowSurface : List Call → Ptr → Ptr → Ptr → Ptr → Ptr
  eglMakeCurrent : List Call → Ptr → Ptr → Ptr → Ptr → Bool

/-- The state the bridge runs in: the calls made so far, the pointer-sized
memory cells reachable through out-parameters, and the `eglLastError` slot. -/
structure World where
  calls : List Call
  mem : Ptr → Ptr
  eglLastError : Ptr

/-- What stops a run: reading or writing through a null pointer. -/
inductive Fault where
  | nullDereference
  deriving DecidableEq

/-- A run of bridge code: from a world to a value or a fault, and the world
reached when the run returned or stopped. -/
abbrev Exec (α : Type) := World → Except Fault α × World

/-- Continue with the value and world of a finished step; a fault stops the run. -/
def Exec.andThen {α β : Type} (m : Exec α) (f : α → Exec β) : Exec β := fun w =>
  match m w with
  | (.ok a, w1) => f a w1
  | (.error e, w1) => (.error e, w1)

/-- Finish with a value. -/
def Exec.ret {α : Type} (a : α) : Exec α := fun w => (.ok a, w)

instance : Monad Exec where
  pure := Exec.ret
  bind := Exec.andThen

/-- Append a call to the history. -/
def record (c : Call) : Exec Unit := fun w => (.ok (), { w with calls := w.calls ++ [c] })

/-- The assignment through a pointer, written with a star in C++: a fault when
the pointer is null. -/
def store (p v : Ptr) : Exec Unit := fun w =>
  if p = nullptr then (.error .nullDereference, w)
  else (.ok (), { w with mem := fun a => if a = p then v else w.mem a })

/-- Read through a pointer to a video mode: a fault when it is null. -/
def deref (mode : Option GLFWvidmode) : Exec GLFWvidmode := fun w =>
  match mode with
  | some m => (.ok m, w)
  | none => (.error .nullDereference, w)

/-! ## The library calls, as steps -/

def glfwGetPrimaryMonitor (lib : Library) : Exec Ptr := fun w =>
  let ret := lib.glfwGetPrimaryMonitor w.calls
  (.ok ret, { w with calls := w.calls ++ [.glfwGetPrimaryMonitor ret] })

def glfwWindowHint (hint : GlfwHint) (value : Int) : Exec Unit :=
  record (.glfwWindowHint hint value)

def glfwGetVideoMode (lib : Library) (monitor : Ptr) : Exec (Option GLFWvidmode) := fun w =>
  let ret := lib.glfwGetVideoMode w.calls monitor
  (.ok ret, { w with calls := w.calls ++ [.glfwGetVideoMode monitor ret] })

def glfwCreateWindow (lib : Library) (width height : Int) (title : String)
    (monitor share : Ptr) : Exec Ptr := fun w =>
  let ret := lib.glfwCreateWindow w.calls width height title monitor share
  (.ok ret, { w with calls := w.calls ++ [.glfwCreateWindow width height title monitor share ret] })

def glfwIconifyWindow (window : Ptr) : Exec Unit :=
  record (.glfwIconifyWindow window)

def glfwGetPlatform (lib : Library) : Exec Int := fun w =>
  (.ok lib.platform, { w with calls := w.calls ++ [.glfwGetPlatform lib.platform] })

def glfwGetWin32Window (lib : Library) (window : Ptr) : Exec Ptr := fun w =>
  let ret := lib.glfwGetWin32Window w.calls window
  (.ok ret, { w with calls := w.calls ++ [.glfwGetWin32Window window ret] })

def glfwSetWindowOpacity (window : Ptr) (opacity : Float32) : Exec Unit :=
  record (.glfwSetWindowOpacity window opacity)

def glfwGetWindowOpacity (lib : Library) (window : Ptr) : Exec Float32 := fun w =>
  let ret := lib.glfwGetWindowOpacity w.calls window
  (.ok ret, { w with calls := w.calls ++ [.glfwGetWindowOpacity window ret] })

def glfwSetWindowIcon (window : Ptr) (count : Int) (images : Ptr) : Exec Unit :=
  record (.glfwSetWindowIcon window count images)

def eglGetPlatformDisplay (lib : Library) (platform : EglAttrib) (nativeDisplay : Ptr)
    (attribList : List EglAttrib) : Exec Ptr := fun w =>
  let ret := lib.eglGetPlatformDisplay w.calls platform nativeDisplay attribList
  (.ok ret, { w with calls := w.calls ++ [.eglGetPlatformDisplay platform nativeDisplay attribList ret] })

def eglInitialize (lib : Library) (dpy major minor : Ptr) : Exec Bool := fun w =>
  let ret := lib.eglInitialize w.calls dpy major minor
  (.ok ret, { w with calls := w.calls ++ [.eglInitialize dpy major minor ret] })

/-- The step `eglChooseConfig(dpy, attribList, &config, configSize, &numConfig)`: the
returned flag, and the values the library left in `config` and `numConfig`. -/
def eglChooseConfig (lib : Library) (dpy : Ptr) (attribList : List EglAttrib)
    (configSize : Int) : Exec (Bool × Ptr × Int) := fun w =>
  let ret := lib.eglChooseConfig w.calls dpy attribList configSize
  (.ok ret, { w with calls := w.calls ++
    [.eglChooseConfig dpy attribList configSize ret.1 ret.2.1 ret.2.2] })

def eglCreateContext (lib : Library) (dpy config shareContext : Ptr)
    (attribList : List EglAttrib) : Exec Ptr := fun w =>
  let ret := lib.eglCreateContext w.calls dpy config shareContext attribList
  (.ok ret, { w with calls := w.calls ++ [.eglCreateContext dpy config shareContext attribList ret] })

def eglCreateWindowSurface (lib : Library) (dpy config win attribList : Ptr) : Exec Ptr := fun w =>
  let ret := lib.eglCreateWindowSurface w.calls dpy config win attribList
  (.ok ret, { w with calls := w.calls ++ [.eglCreateWindowSurface dpy config win attribList ret] })

def eglMakeCurrent (lib : Library) (dpy draw read ctx : Ptr) : Exec Bool := fun w =>
  let ret := lib.eglMakeCurrent w.calls dpy draw read ctx
  (.ok ret, { w with calls := w.calls ++ [.eglMakeCurrent dpy draw read ctx ret] })

def eglDestroySurface (dpy surface : Ptr) : Exec Unit :=
  record (.eglDestroySurface dpy surface)

def eglDestroyContext (dpy ctx : Ptr) : Exec Unit :=
  record (.eglDestroyContext dpy ctx)

/-! ## `windowing.cpp` -/

def minimizeWindow (window : Ptr) : Exec Unit :=
  glfwIconifyWindow window

def createWindow (lib : Library) (width height : Int) (title : String) (windowFlags : Int) :
    Exec Ptr := do
  let mut window := nullptr
  let monitor ← glfwGetPrimaryMonitor lib
  glfwWindowHint .CLIENT_API GLFW_NO_API
  glfwWindowHint .STEREO GLFW_FALSE
  glfwWindowHint .COCOA_GRAPHICS_SWITCHING GLFW_TRUE
  glfwWindowHint .COCOA_RETINA_FRAMEBUFFER GLFW_TRUE
  glfwWindowHint .FOCUS_ON_SHOW GLFW_TRUE
  glfwWindowHint .RESIZABLE
    (if Int.land windowFlags WINDOW_HINT_RESIZABLE ≠ 0 then GLFW_TRUE else GLFW_FALSE)
  glfwWindowHint .VISIBLE
    (if Int.land windowFlags WINDOW_HINT_VISIBLE ≠ 0 then GLFW_TRUE else GLFW_FALSE)
  glfwWindowHint .DECORATED
    (if Int.land windowFlags WINDOW_HINT_DECORATED ≠ 0 then GLFW_TRUE else GLFW_FALSE)
  glfwWindowHint .SCALE_TO_MONITOR
    (if Int.land windowFlags WINDOW_HINT_DPI_AWARE ≠ 0 then GLFW_TRUE else GLFW_FALSE)
  glfwWindowHint .FOCUSED
    (if Int.land windowFlags WINDOW_HINT_FOCUSED ≠ 0 then GLFW_TRUE else GLFW_FALSE)
  glfwWindowHint .FLOATING
    (if Int.land windowFlags WINDOW_HINT_ALWAYS_ON_TOP ≠ 0 then GLFW_TRUE else GLFW_FALSE)
  glfwWindowHint .TRANSPARENT_FRAMEBUFFER
    (if Int.land windowFlags WINDOW_TRANSPARENT_FRAMEBUFFER ≠ 0 then GLFW_TRUE else GLFW_FALSE)
  -- unsigned char windowMode = windowFlags & 0b111;
  let windowMode : Int := Int.land windowFlags 0b111 % 256
  if windowMode = WINDOW_MODE_WINDOWED then
    window ← glfwCreateWindow lib width height title nullptr nullptr
  else if windowMode = WINDOW_MODE_MINIMIZED then
    window ← glfwCreateWindow lib width height title nullptr nullptr
    minimizeWindow window
  else if windowMode = WINDOW_MODE_MAXIMIZED then
    glfwWindowHint .MAXIMIZED GLFW_TRUE
    window ← glfwCreateWindow lib width height title nullptr nullptr
  else if windowMode = WINDOW_MODE_FULLSCREEN then
    let mode ← glfwGetVideoMode lib monitor
    glfwWindowHint .RED_BITS (← deref mode).redBits
    glfwWindowHint .GREEN_BITS (← deref mode).greenBits
    glfwWindowHint .BLUE_BITS (← deref mode).blueBits
    glfwWindowHint .REFRESH_RATE (← deref mode).refreshRate
    window ← glfwCreateWindow lib width height title monitor nullptr
  else if windowMode = WINDOW_MODE_EXCLUSIVE_FULLSCREEN then
    window ← glfwCreateWindow lib width height title (← glfwGetPrimaryMonitor lib) nullptr
  else
    window ← glfwCreateWindow lib width height title nullptr nullptr
  return window

def getNativeWindowHandle (lib : Library) (window : Ptr) : Exec Ptr := do
  let currentPlatform ← glfwGetPlatform lib
  if currentPlatform = GLFW_PLATFORM_WIN32 then
    return (← glfwGetWin32Window lib window)
  else
    -- the cases X11, WAYLAND, COCOA and default all reach `break`
    return nullptr

def setWindowOpacity (lib : Library) (window : Ptr) (opacity : Float32) : Exec Int := do
  glfwSetWindowOpacity window opacity
  -- `opacity != 1 && glfwGetWindowOpacity(window) == 1`: the right operand is
  -- evaluated only when the left one holds
  if opacity ≠ float32One then
    if (← glfwGetWindowOpacity lib window) = float32One then
      return 0
    else
      return 1
  else
    return 1

def setWindowIcon (lib : Library) (window : Ptr) (arraySize : Int) (images : Ptr) :
    Exec Unit := do
  -- the right operand of `||` is evaluated only when the left one fails
  if (← glfwGetPlatform lib) = GLFW_PLATFORM_COCOA then
    return
  else if (← glfwGetPlatform lib) = GLFW_PLATFORM_WAYLAND then
    return
  else
    glfwSetWindowIcon window arraySize images

def resetWindowIconToDefault (lib : Library) (window : Ptr) : Exec Unit := do
  if (← glfwGetPlatform lib) = GLFW_PLATFORM_COCOA then
    return
  else if (← glfwGetPlatform lib) = GLFW_PLATFORM_WAYLAND then
    return
  else
    glfwSetWindowIcon window 0 nullptr

/-! ## `egl_context_manager.cpp` -/

def getEglLastError : Exec Ptr := fun w => (.ok w.eglLastError, w)

/-- The set-up sequence. `context`, `display` and `surface` are the pointer
parameters of the C++ function, that is, the addresses of the caller's variables;
the source passes these pointers themselves, not the values stored behind them,
to the comparisons with `EGL_NO_DISPLAY` and `EGL_NO_SURFACE` and to every EGL
call after `eglGetPlatformDisplay`. -/
def setupEgl (lib : Library) (renderingBackend : Int) (context display surface : Ptr)
    (window : Ptr) : Exec Int := do
  let _ := renderingBackend
  store context nullptr
  let platformAttributes : List EglAttrib := [
    .PLATFORM_ANGLE_TYPE_ANGLE, .PLATFORM_ANGLE_TYPE_DEFAULT_ANGLE,
    .PLATFORM_ANGLE_MAX_VERSION_MAJOR_ANGLE, .num 1,
    .PLATFORM_ANGLE_MAX_VERSION_MINOR_ANGLE, .num 1,
    .NONE]
  store display
    (← eglGetPlatformDisplay lib .PLATFORM_ANGLE_ANGLE EGL_DEFAULT_DISPLAY platformAttributes)
  if display = EGL_NO_DISPLAY then
    return 0
  else if !(← eglInitialize lib display nullptr nullptr) then
    return 0
  else
    let configAttributes : List EglAttrib := [
      .SURFACE_TYPE, .WINDOW_BIT,
      .RENDERABLE_TYPE, .OPENGL_ES2_BIT,
      .NONE]
    let (chosen, config, numConfigs) ← eglChooseConfig lib display configAttributes 1
    if !chosen || numConfigs < 1 then
      return 0
    else
      let contextAttributes : List EglAttrib := [
        .CONTEXT_CLIENT_VERSION, .num 2,
        .NONE]
      let ctx ← eglCreateContext lib display config EGL_NO_CONTEXT contextAttributes
      if ctx = EGL_NO_CONTEXT then
        return 0
      else
        store context ctx
        let nativeWindow ← getNativeWindowHandle lib window
        store surface (← eglCreateWindowSurface lib display config nativeWindow nullptr)
        if surface = EGL_NO_SURFACE then
          return 0
        else if !(← eglMakeCurrent lib display surface surface context) then
          return 0
        else
          return 1

def terminateEgl (display surface context : Ptr) : Exec Unit := do
  eglDestroySurface display surface
  eglDestroyContext display context

/-! ## Closed forms used in the statements -/

/-- The calls `createWindow` makes before it dispatches on the presentation mode:
the primary-monitor query, whose answer is `monitor`, and its twelve hints. -/
def hintCalls (monitor : Ptr) (windowFlags : Int) : List Call :=
  [.glfwGetPrimaryMonitor monitor,
   .glfwWindowHint .CLIENT_API GLFW_NO_API,
   .glfwWindowHint .STEREO GLFW_FALSE,
   .glfwWindowHint .COCOA_GRAPHICS_SWITCHING GLFW_TRUE,
   .glfwWindowHint .COCOA_RETINA_FRAMEBUFFER GLFW_TRUE,
   .glfwWindowHint .FOCUS_ON_SHOW GLFW_TRUE,
   .glfwWindowHint .RESIZABLE
     (if Int.land windowFlags WINDOW_HINT_RESIZABLE ≠ 0 then GLFW_TRUE else GLFW_FALSE),
   .glfwWindowHint .VISIBLE
     (if Int.land windowFlags WINDOW_HINT_VISIBLE ≠ 0 then GLFW_TRUE else GLFW_FALSE),
   .glfwWindowHint .DECORATED
     (if Int.land windowFlags WINDOW_HINT_DECORATED ≠ 0 then GLFW_TRUE else GLFW_FALSE),
   .glfwWindowHint .SCALE_TO_MONITOR
     (if Int.land windowFlags WINDOW_HINT_DPI_AWARE ≠ 0 then GLFW_TRUE else GLFW_FALSE),
   .glfwWindowHint .FOCUSED
     (if Int.land windowFlags WINDOW_HINT_FOCUSED ≠ 0 then GLFW_TRUE else GLFW_FALSE),
   .glfwWindowHint .FLOATING
     (if Int.land windowFlags WINDOW_HINT_ALWAYS_ON_TOP ≠ 0 then GLFW_TRUE else GLFW_FALSE),
   .glfwWindowHint .TRANSPARENT_FRAMEBUFFER
     (if Int.land windowFlags WINDOW_TRANSPARENT_FRAMEBUFFER ≠ 0 then GLFW_TRUE else GLFW_FALSE)]

/-- Whether a call sets one of the seven boolean creation hints. -/
def setsBooleanHint : Call → Bool
  | .glfwWindowHint hint _ =>
    decide (hint ∈ [GlfwHint.RESIZABLE, .VISIBLE, .DECORATED, .SCALE_TO_MONITOR, .FOCUSED,
      .FLOATING, .TRANSPARENT_FRAMEBUFFER])
  | _ => false

/-- A world in which nothing has happened yet. -/
def emptyWorld : World := ⟨[], fun _ => 0, nullptr⟩

/-- A library on which every call succeeds, running on X11. -/
def sampleLibrary : Library where
  platform := GLFW_PLATFORM_X11
  glfwGetPrimaryMonitor := fun _ => 5
  glfwGetVideoMode := fun _ _ => some ⟨1920, 1080, 8, 8, 8, 60⟩
  glfwCreateWindow := fun _ _ _ _ _ _ => 6
  glfwGetWin32Window := fun _ _ => 0
  glfwGetWindowOpacity := fun _ _ => float32One
  eglGetPlatformDisplay := fun _ _ _ _ => 7
  eglInitialize := fun _ _ _ _ => true
  eglChooseConfig := fun _ _ _ _ => (true, 3, 1)
  eglCreateContext := fun _ _ _ _ _ => 8
  eglCreateWindowSurface := fun _ _ _ _ _ => 9
  eglMakeCurrent := fun _ _ _ _ _ => true

/-- Whether a call hands a null window to the windowing library. -/
def onNullWindow : Call → Bool
  | .glfwIconifyWindow window => decide (window = nullptr)
  | .glfwGetWin32Window window _ => decide (window = nullptr)
  | .glfwSetWindowOpacity window _ => decide (window = nullptr)
  | .glfwGetWindowOpacity window _ => decide (window = nullptr)
  | .glfwSetWindowIcon window _ _ => decide (window = nullptr)
  | _ => false

/-- A library with no monitor, on which the video-mode query yields nothing and
window creation fails. -/
def headlessLibrary : Library :=
  { sampleLibrary with
    glfwGetPrimaryMonitor := fun _ => nullptr
    glfwGetVideoMode := fun _ _ => none
    glfwCreateWindow := fun _ _ _ _ _ _ => nullptr }

/-- Whether a call is a window creation. -/
def isCreation : Call → Bool
  | .glfwCreateWindow _ _ _ _ _ _ => true
  | _ => false

/-- The library `sampleLibrary` running on Cocoa. -/
def cocoaLibrary : Library := { sampleLibrary with platform := GLFW_PLATFORM_COCOA }

/-- The library `sampleLibrary` running on Wayland. -/
def waylandLibrary : Library := { sampleLibrary with platform := GLFW_PLATFORM_WAYLAND }

/-- A library on which every call succeeds except window-surface creation, which
yields `EGL_NO_SURFACE`; it runs on X11, where no native handle is resolved. -/
def noSurfaceLibrary : Library :=
  { sampleLibrary with eglCreateWindowSurface := fun _ _ _ _ _ => EGL_NO_SURFACE }

/-- A library on which display acquisition yields `EGL_NO_DISPLAY` and every other
call succeeds. -/
def noDisplayLibrary : Library :=
  { sampleLibrary with eglGetPlatformDisplay := fun _ _ _ _ => EGL_NO_DISPLAY }

/-- The seven boolean creation hints. -/
structure WindowHints where
  resizable : Bool
  visible : Bool
  decorated : Bool
  dpiAware : Bool
  focused : Bool
  alwaysOnTop : Bool
  transparentFramebuffer : Bool
  deriving DecidableEq

/-- The seven boolean hints as `createWindow` decodes them from `windowFlags`: the
conditions of its seven hint lines. -/
def decodeHints (windowFlags : Int) : WindowHints where
  resizable := decide (Int.land windowFlags WINDOW_HINT_RESIZABLE ≠ 0)
  visible := decide (Int.land windowFlags WINDOW_HINT_VISIBLE ≠ 0)
  decorated := decide (Int.land windowFlags WINDOW_HINT_DECORATED ≠ 0)
  dpiAware := decide (Int.land windowFlags WINDOW_HINT_DPI_AWARE ≠ 0)
  focused := decide (Int.land windowFlags WINDOW_HINT_FOCUSED ≠ 0)
  alwaysOnTop := decide (Int.land windowFlags WINDOW_HINT_ALWAYS_ON_TOP ≠ 0)
  transparentFramebuffer := decide (Int.land windowFlags WINDOW_TRANSPARENT_FRAMEBUFFER ≠ 0)

/-- The presentation mode as `createWindow` decodes it: the `unsigned char` it
switches on. -/
def decodeWindowMode (windowFlags : Int) : Int :=
  Int.land windowFlags 0b111 % 256

/-- Modelled from the spec: the re-encoding of the boolean hints, which is not part
of the native sources. Each hint that is set contributes its documented bit: bit 3
resizable, bit 4 visible, bit 5 decorated, bit 6 dpi-aware, bit 7 focused, bit 8
always-on-top, bit 9 transparent-framebuffer. -/
def encodeHints (h : WindowHints) : Int :=
  Int.lor (if h.resizable then 2 ^ 3 else 0)
    (Int.lor (if h.visible then 2 ^ 4 else 0)
      (Int.lor (if h.decorated then 2 ^ 5 else 0)
        (Int.lor (if h.dpiAware then 2 ^ 6 else 0)
          (Int.lor (if h.focused then 2 ^ 7 else 0)
            (Int.lor (if h.alwaysOnTop then 2 ^ 8 else 0)
              (if h.transparentFramebuffer then 2 ^ 9 else 0))))))

/-! # Theorems -/

/-! ## Bits of integers -/

/-- Two integers with the same bits are equal. -/
theorem int_eq_of_testBit_eq {a b : Int} (h : ∀ i, a.testBit i = b.testBit i) : a = b := by
  have key : ∀ m n : Nat, ¬ (∀ i, Nat.testBit m i = !Nat.testBit n i) := by
    intro m n hmn
    have hm : Nat.testBit m (m + n) = false :=
      Nat.testBit_lt_two_pow (lt_of_le_of_lt (Nat.le_add_right m n) (Nat.lt_two_pow _))
    have hn : Nat.testBit n (m + n) = false :=
      Nat.testBit_lt_two_pow (lt_of_le_of_lt (Nat.le_add_left n m) (Nat.lt_two_pow _))
    have := hmn (m + n)
    rw [hm, hn] at this
    exact absurd this (by decide)
  cases a with
  | ofNat m =>
    cases b with
    | ofNat n => exact congrArg Int.ofNat (Nat.eq_of_testBit_eq h)
    | negSucc n => exact absurd h (key m n)
  | negSucc m =>
    cases b with
    | ofNat n => exact absurd (fun i => (h i).symm) (key n m)
    | negSucc n =>
      refine congrArg Int.negSucc (Nat.eq_of_testBit_eq fun i => ?_)
      have := h i
      simp only [Int.testBit] at this
      simpa using this

theorem testBit_two_pow_int (k i : Nat) : Int.testBit ((2 ^ k : Nat) : Int) i = decide (k = i) := by
  show Nat.testBit (2 ^ k) i = _
  exact Nat.testBit_two_pow

/-- Masking with a single bit keeps that bit alone. -/
theorem land_two_pow (w : Int) (k : Nat) :
    Int.land w ((2 ^ k : Nat) : Int) = if w.testBit k then ((2 ^ k : Nat) : Int) else 0 := by
  apply int_eq_of_testBit_eq
  intro i
  rw [Int.testBit_land, testBit_two_pow_int]
  have hz : Int.testBit 0 i = false := by
    show Nat.testBit 0 i = false
    simp
  cases hb : w.testBit k
  · simp only [hz, Bool.false_eq_true, if_false]
    by_cases hki : k = i
    · subst hki; simp [hb]
    · simp [hki]
  · rw [if_pos rfl, testBit_two_pow_int]
    by_cases hki : k = i
    · subst hki; simp [hb]
    · simp [hki]

theorem land_two_pow_ne_zero (w : Int) (k : Nat) :
    Int.land w ((2 ^ k : Nat) : Int) ≠ 0 ↔ w.testBit k = true := by
  rw [land_two_pow]
  have hpos : ((2 ^ k : Nat) : Int) ≠ 0 := by
    have := Nat.two_pow_pos k
    omega
  cases hb : w.testBit k
  · simp
  · simp [hpos]


/-! ## The run of `createWindow` -/

/-- The run of `createWindow`, branch by branch. -/
theorem createWindow_eq (lib : Library) (w : World) (width height : Int) (title : String)
    (windowFlags : Int) :
    createWindow lib width height title windowFlags w =
      let monitor := lib.glfwGetPrimaryMonitor w.calls
      let pre := w.calls ++ hintCalls monitor windowFlags
      let windowMode := Int.land windowFlags 0b111 % 256
      if windowMode = WINDOW_MODE_WINDOWED then
        let ret := lib.glfwCreateWindow pre width height title nullptr nullptr
        (.ok ret, { w with calls := pre ++
          [.glfwCreateWindow width height title nullptr nullptr ret] })
      else if windowMode = WINDOW_MODE_MINIMIZED then
        let ret := lib.glfwCreateWindow pre width height title nullptr nullptr
        (.ok ret, { w with calls := pre ++
          [.glfwCreateWindow width height title nullptr nullptr ret, .glfwIconifyWindow ret] })
      else if windowMode = WINDOW_MODE_MAXIMIZED then
        let ret := lib.glfwCreateWindow (pre ++ [.glfwWindowHint .MAXIMIZED GLFW_TRUE])
          width height title nullptr nullptr
        (.ok ret, { w with calls := pre ++
          [.glfwWindowHint .MAXIMIZED GLFW_TRUE,
           .glfwCreateWindow width height title nullptr nullptr ret] })
      else if windowMode = WINDOW_MODE_FULLSCREEN then
        match lib.glfwGetVideoMode pre monitor with
        | none => (.error .nullDereference, { w with calls := pre ++
            [.glfwGetVideoMode monitor none] })
        | some mode =>
          let bits : List Call :=
            [.glfwGetVideoMode monitor (some mode),
             .glfwWindowHint .RED_BITS mode.redBits,
             .glfwWindowHint .GREEN_BITS mode.greenBits,
             .glfwWindowHint .BLUE_BITS mode.blueBits,
             .glfwWindowHint .REFRESH_RATE mode.refreshRate]
          let ret := lib.glfwCreateWindow (pre ++ bits) width height title monitor nullptr
          (.ok ret, { w with calls := pre ++ bits ++
            [.glfwCreateWindow width height title monitor nullptr ret] })
      else if windowMode = WINDOW_MODE_EXCLUSIVE_FULLSCREEN then
        let monitor2 := lib.glfwGetPrimaryMonitor pre
        let ret := lib.glfwCreateWindow (pre ++ [.glfwGetPrimaryMonitor monitor2])
          width height title monitor2 nullptr
        (.ok ret, { w with calls := pre ++
          [.glfwGetPrimaryMonitor monitor2,
           .glfwCreateWindow width height title monitor2 nullptr ret] })
      else
        let ret := lib.glfwCreateWindow pre width height title nullptr nullptr
        (.ok ret, { w with calls := pre ++
          [.glfwCreateWindow width height title nullptr nullptr ret] }) := by
  simp only [createWindow, bind, pure, Exec.andThen, Exec.ret, glfwGetPrimaryMonitor,
    glfwWindowHint, record, List.append_assoc, List.singleton_append,
    List.cons_append, List.nil_append, hintCalls]
  by_cases h0 : Int.land windowFlags 0b111 % 256 = WINDOW_MODE_WINDOWED
  · simp only [if_pos h0, glfwCreateWindow, Exec.andThen, Exec.ret, List.append_assoc, List.singleton_append,
      List.cons_append, List.nil_append]
  by_cases h1 : Int.land windowFlags 0b111 % 256 = WINDOW_MODE_MINIMIZED
  · simp only [if_neg h0, if_pos h1, glfwCreateWindow, Exec.andThen, Exec.ret, minimizeWindow, glfwIconifyWindow,
      record, List.append_assoc, List.singleton_append, List.cons_append, List.nil_append]
  by_cases h2 : Int.land windowFlags 0b111 % 256 = WINDOW_MODE_MAXIMIZED
  · simp only [if_neg h0, if_neg h1, if_pos h2, glfwCreateWindow, Exec.andThen, Exec.ret, record,
      List.append_assoc, List.singleton_append, List.cons_append, List.nil_append]
  by_cases h3 : Int.land windowFlags 0b111 % 256 = WINDOW_MODE_FULLSCREEN
  · simp only [if_neg h0, if_neg h1, if_neg h2, if_pos h3, glfwGetVideoMode, Exec.andThen]
    generalize lib.glfwGetVideoMode _ _ = vm
    cases vm with
    | none =>
      simp only [deref, Exec.andThen, List.append_assoc, List.singleton_append,
        List.cons_append, List.nil_append]
    | some mode =>
      simp only [deref, glfwCreateWindow, Exec.andThen, Exec.ret, record, List.append_assoc,
        List.singleton_append, List.cons_append, List.nil_append]
  by_cases h4 : Int.land windowFlags 0b111 % 256 = WINDOW_MODE_EXCLUSIVE_FULLSCREEN
  · simp only [if_neg h0, if_neg h1, if_neg h2, if_neg h3, if_pos h4, glfwCreateWindow, Exec.andThen, Exec.ret,
      glfwGetPrimaryMonitor, List.append_assoc, List.singleton_append, List.cons_append,
      List.nil_append]
  · simp only [if_neg h0, if_neg h1, if_neg h2, if_neg h3, if_neg h4, glfwCreateWindow, Exec.andThen, Exec.ret,
      List.append_assoc, List.singleton_append, List.cons_append, List.nil_append]

theorem land_bit_ne_zero (w c : Int) (k : Nat) (hc : c = ((2 ^ k : Nat) : Int)) :
    Int.land w c ≠ 0 ↔ w.testBit k = true := by
  subst hc
  exact land_two_pow_ne_zero w k

/-- The value `createWindow` passes for a boolean hint, in terms of the bit. -/
theorem hint_value_eq (w c : Int) (k : Nat) (hc : c = ((2 ^ k : Nat) : Int)) :
    (if Int.land w c ≠ 0 then GLFW_TRUE else GLFW_FALSE) =
      if w.testBit k then GLFW_TRUE else GLFW_FALSE := by
  by_cases h : w.testBit k = true
  · rw [if_pos ((land_bit_ne_zero w c k hc).2 h), if_pos h]
  · rw [if_neg (fun h2 => h ((land_bit_ne_zero w c k hc).1 h2)), if_neg h]

/-- The hints of `createWindow`, bit by bit. -/
theorem hintCalls_eq_bits (monitor : Ptr) (windowFlags : Int) :
    hintCalls monitor windowFlags =
      [.glfwGetPrimaryMonitor monitor,
       .glfwWindowHint .CLIENT_API GLFW_NO_API,
       .glfwWindowHint .STEREO GLFW_FALSE,
       .glfwWindowHint .COCOA_GRAPHICS_SWITCHING GLFW_TRUE,
       .glfwWindowHint .COCOA_RETINA_FRAMEBUFFER GLFW_TRUE,
       .glfwWindowHint .FOCUS_ON_SHOW GLFW_TRUE,
       .glfwWindowHint .RESIZABLE (if windowFlags.testBit 3 then GLFW_TRUE else GLFW_FALSE),
       .glfwWindowHint .VISIBLE (if windowFlags.testBit 4 then GLFW_TRUE else GLFW_FALSE),
       .glfwWindowHint .DECORATED (if windowFlags.testBit 5 then GLFW_TRUE else GLFW_FALSE),
       .glfwWindowHint .SCALE_TO_MONITOR (if windowFlags.testBit 6 then GLFW_TRUE else GLFW_FALSE),
       .glfwWindowHint .FOCUSED (if windowFlags.testBit 7 then GLFW_TRUE else GLFW_FALSE),
       .glfwWindowHint .FLOATING (if windowFlags.testBit 8 then GLFW_TRUE else GLFW_FALSE),
       .glfwWindowHint .TRANSPARENT_FRAMEBUFFER
         (if windowFlags.testBit 9 then GLFW_TRUE else GLFW_FALSE)] := by
  unfold hintCalls
  rw [hint_value_eq windowFlags WINDOW_HINT_RESIZABLE 3 rfl,
    hint_value_eq windowFlags WINDOW_HINT_VISIBLE 4 rfl,
    hint_value_eq windowFlags WINDOW_HINT_DECORATED 5 rfl,
    hint_value_eq windowFlags WINDOW_HINT_DPI_AWARE 6 rfl,
    hint_value_eq windowFlags WINDOW_HINT_FOCUSED 7 rfl,
    hint_value_eq windowFlags WINDOW_HINT_ALWAYS_ON_TOP 8 rfl,
    hint_value_eq windowFlags WINDOW_TRANSPARENT_FRAMEBUFFER 9 rfl]

/-- After its hints, `createWindow` only appends calls that set none of the seven
boolean hints. -/
theorem createWindow_calls (lib : Library) (w : World) (width height : Int) (title : String)
    (windowFlags : Int) :
    ∃ tail : List Call,
      (createWindow lib width height title windowFlags w).2.calls =
        w.calls ++ hintCalls (lib.glfwGetPrimaryMonitor w.calls) windowFlags ++ tail ∧
      tail.any setsBooleanHint = false := by
  rw [createWindow_eq]
  simp only []
  split_ifs
  · exact ⟨_, rfl, rfl⟩
  · exact ⟨_, rfl, rfl⟩
  · exact ⟨_, rfl, rfl⟩
  · split
    · exact ⟨_, rfl, rfl⟩
    · exact ⟨_ ++ _, List.append_assoc _ _ _, rfl⟩
  · exact ⟨_, rfl, rfl⟩
  · exact ⟨_, rfl, rfl⟩

/-- C1. `createWindow` sets each of the seven boolean creation hints from exactly its
documented bit of `windowFlags`: RESIZABLE from bit 3, VISIBLE from bit 4, DECORATED
from bit 5, SCALE_TO_MONITOR from bit 6, FOCUSED from bit 7, FLOATING from bit 8 and
TRANSPARENT_FRAMEBUFFER from bit 9, and no later call of the run sets any of them
again. With `windowFlags = 0` all seven are false and the window is created in
windowed mode, by one creation call without a monitor. -/
theorem createWindow_hints_follow_bits (lib : Library) (w : World) (width height : Int)
    (title : String) (windowFlags : Int) :
    (∃ tail : List Call,
      (createWindow lib width height title windowFlags w).2.calls =
        w.calls ++
        [.glfwGetPrimaryMonitor (lib.glfwGetPrimaryMonitor w.calls),
         .glfwWindowHint .CLIENT_API GLFW_NO_API,
         .glfwWindowHint .STEREO GLFW_FALSE,
         .glfwWindowHint .COCOA_GRAPHICS_SWITCHING GLFW_TRUE,
         .glfwWindowHint .COCOA_RETINA_FRAMEBUFFER GLFW_TRUE,
         .glfwWindowHint .FOCUS_ON_SHOW GLFW_TRUE,
         .glfwWindowHint .RESIZABLE (if windowFlags.testBit 3 then GLFW_TRUE else GLFW_FALSE),
         .glfwWindowHint .VISIBLE (if windowFlags.testBit 4 then GLFW_TRUE else GLFW_FALSE),
         .glfwWindowHint .DECORATED (if windowFlags.testBit 5 then GLFW_TRUE else GLFW_FALSE),
         .glfwWindowHint .SCALE_TO_MONITOR
           (if windowFlags.testBit 6 then GLFW_TRUE else GLFW_FALSE),
         .glfwWindowHint .FOCUSED (if windowFlags.testBit 7 then GLFW_TRUE else GLFW_FALSE),
         .glfwWindowHint .FLOATING (if windowFlags.testBit 8 then GLFW_TRUE else GLFW_FALSE),
         .glfwWindowHint .TRANSPARENT_FRAMEBUFFER
           (if windowFlags.testBit 9 then GLFW_TRUE else GLFW_FALSE)] ++ tail ∧
      tail.any setsBooleanHint = false) ∧
    (∃ ret : Ptr,
      createWindow lib width height title 0 w =
        (.ok ret, { w with calls := w.calls ++
          [.glfwGetPrimaryMonitor (lib.glfwGetPrimaryMonitor w.calls),
           .glfwWindowHint .CLIENT_API GLFW_NO_API,
           .glfwWindowHint .STEREO GLFW_FALSE,
           .glfwWindowHint .COCOA_GRAPHICS_SWITCHING GLFW_TRUE,
           .glfwWindowHint .COCOA_RETINA_FRAMEBUFFER GLFW_TRUE,
           .glfwWindowHint .FOCUS_ON_SHOW GLFW_TRUE,
           .glfwWindowHint .RESIZABLE GLFW_FALSE,
           .glfwWindowHint .VISIBLE GLFW_FALSE,
           .glfwWindowHint .DECORATED GLFW_FALSE,
           .glfwWindowHint .SCALE_TO_MONITOR GLFW_FALSE,
           .glfwWindowHint .FOCUSED GLFW_FALSE,
           .glfwWindowHint .FLOATING GLFW_FALSE,
           .glfwWindowHint .TRANSPARENT_FRAMEBUFFER GLFW_FALSE,
           .glfwCreateWindow width height title nullptr nullptr ret] })) := by
  refine ⟨?_, ?_⟩
  · obtain ⟨tail, hcalls, hnone⟩ := createWindow_calls lib w width height title windowFlags
    rw [hintCalls_eq_bits] at hcalls
    exact ⟨tail, hcalls, hnone⟩
  · refine ⟨lib.glfwCreateWindow (w.calls ++ hintCalls (lib.glfwGetPrimaryMonitor w.calls) 0)
      width height title nullptr nullptr, ?_⟩
    have h0 : Int.land 0 0b111 % 256 = WINDOW_MODE_WINDOWED := by decide
    rw [createWindow_eq]
    simp only [if_pos h0, List.append_assoc]
    rfl


/-! ## Unrecognised presentation modes -/

theorem testBit_seven (i : Nat) : Int.testBit 0b111 i = decide (i < 3) := by
  show Nat.testBit (2 ^ 3 - 1) i = _
  exact Nat.testBit_two_pow_sub_one 3 i

/-- The hints depend on bits 3 to 9 only. -/
theorem hintCalls_congr (monitor : Ptr) (f g : Int)
    (h : ∀ i, 3 ≤ i → i ≤ 9 → f.testBit i = g.testBit i) :
    hintCalls monitor f = hintCalls monitor g := by
  rw [hintCalls_eq_bits, hintCalls_eq_bits, h 3 (by decide) (by decide),
    h 4 (by decide) (by decide), h 5 (by decide) (by decide), h 6 (by decide) (by decide),
    h 7 (by decide) (by decide), h 8 (by decide) (by decide), h 9 (by decide) (by decide)]

theorem testBit_clear_mode (f : Int) (i : Nat) :
    (Int.land f (Int.lnot 0b111)).testBit i = (f.testBit i && decide (3 ≤ i)) := by
  rw [Int.testBit_land, Int.testBit_lnot, testBit_seven]
  by_cases h : i < 3
  · simp [h, Nat.not_le.2 h]
  · simp [h, Nat.not_lt.1 h]

theorem land_clear_mode (f : Int) : Int.land (Int.land f (Int.lnot 0b111)) 0b111 = 0 := by
  apply int_eq_of_testBit_eq
  intro i
  rw [Int.testBit_land, testBit_clear_mode, testBit_seven]
  have hz : Int.testBit 0 i = false := by
    show Nat.testBit 0 i = false
    simp
  rw [hz]
  by_cases h : i < 3
  · simp [h, Nat.not_le.2 h]
  · simp [h]

/-- C2. When the low three bits of `windowFlags` are 5, 6 or 7, `createWindow` runs
exactly as it does for the same flags with the low three bits cleared, which select
windowed mode: after the same hints it makes one creation call with no monitor,
sets no maximized hint, does not iconify, and returns what the creation call
returned. -/
theorem createWindow_unrecognized_mode_is_windowed (lib : Library) (w : World)
    (width height : Int) (title : String) (windowFlags : Int)
    (h : Int.land windowFlags 0b111 = 5 ∨ Int.land windowFlags 0b111 = 6 ∨
      Int.land windowFlags 0b111 = 7) :
    createWindow lib width height title windowFlags w =
      createWindow lib width height title (Int.land windowFlags (Int.lnot 0b111)) w ∧
    Int.land (Int.land windowFlags (Int.lnot 0b111)) 0b111 % 256 = WINDOW_MODE_WINDOWED ∧
    ∃ ret : Ptr,
      ret = lib.glfwCreateWindow
        (w.calls ++ hintCalls (lib.glfwGetPrimaryMonitor w.calls) windowFlags)
        width height title nullptr nullptr ∧
      createWindow lib width height title windowFlags w =
        (.ok ret, { w with calls :=
          w.calls ++ hintCalls (lib.glfwGetPrimaryMonitor w.calls) windowFlags ++
            [.glfwCreateWindow width height title nullptr nullptr ret] }) ∧
      ∀ c ∈ hintCalls (lib.glfwGetPrimaryMonitor w.calls) windowFlags ++
          [.glfwCreateWindow width height title nullptr nullptr ret],
        (∀ value, c ≠ .glfwWindowHint .MAXIMIZED value) ∧
        (∀ window, c ≠ .glfwIconifyWindow window) := by
  have hclear := land_clear_mode windowFlags
  have hhints : ∀ monitor, hintCalls monitor (Int.land windowFlags (Int.lnot 0b111)) =
      hintCalls monitor windowFlags := by
    intro monitor
    apply hintCalls_congr
    intro i h3 _
    rw [testBit_clear_mode]
    simp [h3]
  have hrun : createWindow lib width height title windowFlags w =
      (.ok (lib.glfwCreateWindow
          (w.calls ++ hintCalls (lib.glfwGetPrimaryMonitor w.calls) windowFlags)
          width height title nullptr nullptr),
        { w with calls :=
          w.calls ++ hintCalls (lib.glfwGetPrimaryMonitor w.calls) windowFlags ++
            [.glfwCreateWindow width height title nullptr nullptr
              (lib.glfwCreateWindow
                (w.calls ++ hintCalls (lib.glfwGetPrimaryMonitor w.calls) windowFlags)
                width height title nullptr nullptr)] }) := by
    rw [createWindow_eq]
    rcases h with h | h | h <;>
      simp [h, WINDOW_MODE_WINDOWED, WINDOW_MODE_MINIMIZED, WINDOW_MODE_MAXIMIZED,
        WINDOW_MODE_FULLSCREEN, WINDOW_MODE_EXCLUSIVE_FULLSCREEN]
  refine ⟨?_, ?_, _, rfl, hrun, ?_⟩
  · rw [hrun, createWindow_eq]
    simp [hclear, hhints, WINDOW_MODE_WINDOWED]
  · rw [hclear]
    rfl
  · intro c hc
    simp only [hintCalls, List.mem_append, List.mem_cons, List.mem_singleton,
      List.mem_nil_iff, or_false] at hc
    rcases hc with (hc | hc | hc | hc | hc | hc | hc | hc | hc | hc | hc | hc | hc) | hc <;>
      subst hc <;> exact ⟨fun _ hv => (by cases hv), fun _ hv => (by cases hv)⟩

/-- A run of C2 on flags with presentation bits 5 and the resizable bit set: the
fall-back to windowed mode. -/
theorem createWindow_unrecognized_mode_is_windowed_witness :
    Int.land 13 0b111 = 5 ∧
    createWindow sampleLibrary 800 600 "T" 13 emptyWorld =
      createWindow sampleLibrary 800 600 "T" (Int.land 13 (Int.lnot 0b111)) emptyWorld ∧
    (createWindow sampleLibrary 800 600 "T" 13 emptyWorld).1 = .ok 6 :=
  have h := createWindow_unrecognized_mode_is_windowed sampleLibrary emptyWorld 800 600 "T" 13
    (Or.inl (by decide))
  ⟨by decide, h.1, rfl⟩

/-! ## Completion of `createWindow` -/

/-- C6, as stated, fails. On a library with no monitor whose video-mode query yields
nothing and whose window creation fails, `createWindow` in fullscreen mode (flags 3)
stops at the dereference of the missing video mode, and in minimized mode (flags 1)
it calls `glfwIconifyWindow` on the null window. -/
theorem createWindow_unguarded_null :
    createWindow headlessLibrary 800 600 "T" 3 emptyWorld =
      (.error .nullDereference,
        { emptyWorld with calls := hintCalls nullptr 3 ++ [.glfwGetVideoMode nullptr none] }) ∧
    createWindow headlessLibrary 800 600 "T" 1 emptyWorld =
      (.ok nullptr,
        { emptyWorld with calls := hintCalls nullptr 1 ++
          [.glfwCreateWindow 800 600 "T" nullptr nullptr nullptr,
           .glfwIconifyWindow nullptr] }) := by
  constructor <;> rfl

/-- C6, amended. For every `windowFlags` and every answer of the windowing library,
an absent primary monitor included, and also a failed creation outside minimized
mode: if the video-mode query of fullscreen mode yields a mode and the creation call
of minimized mode succeeds, `createWindow` completes without a fault, makes exactly
one creation call, returns exactly what that call returned, and hands no null window
to the library. -/
theorem createWindow_returns_creation_result (lib : Library) (w : World)
    (width height : Int) (title : String) (windowFlags : Int)
    (hvideo : Int.land windowFlags 0b111 % 256 = WINDOW_MODE_FULLSCREEN →
      lib.glfwGetVideoMode
        (w.calls ++ hintCalls (lib.glfwGetPrimaryMonitor w.calls) windowFlags)
        (lib.glfwGetPrimaryMonitor w.calls) ≠ none)
    (hcreated : Int.land windowFlags 0b111 % 256 = WINDOW_MODE_MINIMIZED →
      lib.glfwCreateWindow
        (w.calls ++ hintCalls (lib.glfwGetPrimaryMonitor w.calls) windowFlags)
        width height title nullptr nullptr ≠ nullptr) :
    ∃ (issued later : List Call) (monitor ret : Ptr),
      createWindow lib width height title windowFlags w =
        (.ok ret, { w with calls := w.calls ++ issued ++
          [.glfwCreateWindow width height title monitor nullptr ret] ++ later }) ∧
      ret = lib.glfwCreateWindow (w.calls ++ issued) width height title monitor nullptr ∧
      (issued ++ later).any isCreation = false ∧
      (issued ++ later).any onNullWindow = false := by
  have hpre : ∀ monitor, (hintCalls monitor windowFlags).any isCreation = false ∧
      (hintCalls monitor windowFlags).any onNullWindow = false := fun _ => ⟨rfl, rfl⟩
  rw [createWindow_eq]
  simp only []
  by_cases h0 : Int.land windowFlags 0b111 % 256 = WINDOW_MODE_WINDOWED
  · rw [if_pos h0]
    refine ⟨hintCalls (lib.glfwGetPrimaryMonitor w.calls) windowFlags, [], nullptr,
      (lib.glfwCreateWindow (w.calls ++ hintCalls (lib.glfwGetPrimaryMonitor w.calls) windowFlags)
        width height title nullptr nullptr),
      ?_, rfl, ?_, ?_⟩
    · simp only [List.append_assoc, List.append_nil]
    · simp [(hpre _).1]
    · simp [(hpre _).2]
  rw [if_neg h0]
  by_cases h1 : Int.land windowFlags 0b111 % 256 = WINDOW_MODE_MINIMIZED
  · rw [if_pos h1]
    refine ⟨hintCalls (lib.glfwGetPrimaryMonitor w.calls) windowFlags,
      [.glfwIconifyWindow (lib.glfwCreateWindow (w.calls ++ hintCalls (lib.glfwGetPrimaryMonitor w.calls) windowFlags)
        width height title nullptr nullptr)],
      nullptr,
      (lib.glfwCreateWindow (w.calls ++ hintCalls (lib.glfwGetPrimaryMonitor w.calls) windowFlags)
        width height title nullptr nullptr),
      ?_, rfl, ?_, ?_⟩
    · simp only [List.append_assoc, List.singleton_append]
    · simp [(hpre _).1, isCreation]
    · simp [(hpre _).2, onNullWindow, hcreated h1]
  rw [if_neg h1]
  by_cases h2 : Int.land windowFlags 0b111 % 256 = WINDOW_MODE_MAXIMIZED
  · rw [if_pos h2]
    refine ⟨hintCalls (lib.glfwGetPrimaryMonitor w.calls) windowFlags ++
      [.glfwWindowHint .MAXIMIZED GLFW_TRUE], [], nullptr,
      lib.glfwCreateWindow (w.calls ++ (hintCalls (lib.glfwGetPrimaryMonitor w.calls) windowFlags
        ++ [.glfwWindowHint .MAXIMIZED GLFW_TRUE])) width height title nullptr nullptr,
      ?_, ?_, ?_, ?_⟩
    · simp only [List.append_assoc, List.append_nil, List.singleton_append]
    · simp only [List.append_assoc]
    · simp [(hpre _).1, isCreation]
    · simp [(hpre _).2, onNullWindow]
  rw [if_neg h2]
  by_cases h3 : Int.land windowFlags 0b111 % 256 = WINDOW_MODE_FULLSCREEN
  · rw [if_pos h3]
    cases hm : lib.glfwGetVideoMode
        (w.calls ++ hintCalls (lib.glfwGetPrimaryMonitor w.calls) windowFlags)
        (lib.glfwGetPrimaryMonitor w.calls) with
    | none => exact absurd hm (hvideo h3)
    | some mode =>
      refine ⟨hintCalls (lib.glfwGetPrimaryMonitor w.calls) windowFlags ++
        [.glfwGetVideoMode (lib.glfwGetPrimaryMonitor w.calls) (some mode),
         .glfwWindowHint .RED_BITS mode.redBits,
         .glfwWindowHint .GREEN_BITS mode.greenBits,
         .glfwWindowHint .BLUE_BITS mode.blueBits,
         .glfwWindowHint .REFRESH_RATE mode.refreshRate], [],
        lib.glfwGetPrimaryMonitor w.calls,
        lib.glfwCreateWindow (w.calls ++ (hintCalls (lib.glfwGetPrimaryMonitor w.calls) windowFlags
          ++ [.glfwGetVideoMode (lib.glfwGetPrimaryMonitor w.calls) (some mode),
              .glfwWindowHint .RED_BITS mode.redBits,
              .glfwWindowHint .GREEN_BITS mode.greenBits,
              .glfwWindowHint .BLUE_BITS mode.blueBits,
              .glfwWindowHint .REFRESH_RATE mode.refreshRate])) width height title
          (lib.glfwGetPrimaryMonitor w.calls) nullptr,
        ?_, ?_, ?_, ?_⟩
      · simp only [List.append_assoc, List.append_nil]
      · simp only [List.append_assoc]
      · simp [(hpre _).1, isCreation]
      · simp [(hpre _).2, onNullWindow]
  rw [if_neg h3]
  by_cases h4 : Int.land windowFlags 0b111 % 256 = WINDOW_MODE_EXCLUSIVE_FULLSCREEN
  · rw [if_pos h4]
    refine ⟨hintCalls (lib.glfwGetPrimaryMonitor w.calls) windowFlags ++
      [.glfwGetPrimaryMonitor (lib.glfwGetPrimaryMonitor
        (w.calls ++ hintCalls (lib.glfwGetPrimaryMonitor w.calls) windowFlags))], [],
      lib.glfwGetPrimaryMonitor
        (w.calls ++ hintCalls (lib.glfwGetPrimaryMonitor w.calls) windowFlags),
      lib.glfwCreateWindow (w.calls ++ (hintCalls (lib.glfwGetPrimaryMonitor w.calls) windowFlags
        ++ [.glfwGetPrimaryMonitor (lib.glfwGetPrimaryMonitor
          (w.calls ++ hintCalls (lib.glfwGetPrimaryMonitor w.calls) windowFlags))]))
        width height title (lib.glfwGetPrimaryMonitor
          (w.calls ++ hintCalls (lib.glfwGetPrimaryMonitor w.calls) windowFlags)) nullptr,
      ?_, ?_, ?_, ?_⟩
    · simp only [List.append_assoc, List.append_nil, List.singleton_append]
    · simp only [List.append_assoc]
    · simp [(hpre _).1, isCreation]
    · simp [(hpre _).2, onNullWindow]
  · rw [if_neg h4]
    refine ⟨hintCalls (lib.glfwGetPrimaryMonitor w.calls) windowFlags, [], nullptr,
      (lib.glfwCreateWindow (w.calls ++ hintCalls (lib.glfwGetPrimaryMonitor w.calls) windowFlags)
        width height title nullptr nullptr),
      ?_, rfl, ?_, ?_⟩
    · simp only [List.append_assoc, List.append_nil]
    · simp [(hpre _).1]
    · simp [(hpre _).2]

/-- Two runs of the amended C6 on a library that answers every call: fullscreen mode
with a video mode present, and minimized mode with a successful creation. -/
theorem createWindow_returns_creation_result_witness :
    (∃ (issued later : List Call) (monitor ret : Ptr),
      createWindow sampleLibrary 800 600 "T" 3 emptyWorld =
        (.ok ret, { emptyWorld with calls := emptyWorld.calls ++ issued ++
          [.glfwCreateWindow 800 600 "T" monitor nullptr ret] ++ later }) ∧
      ret = sampleLibrary.glfwCreateWindow (emptyWorld.calls ++ issued) 800 600 "T" monitor
        nullptr ∧
      (issued ++ later).any isCreation = false ∧
      (issued ++ later).any onNullWindow = false) ∧
    (∃ (issued later : List Call) (monitor ret : Ptr),
      createWindow sampleLibrary 800 600 "T" 1 emptyWorld =
        (.ok ret, { emptyWorld with calls := emptyWorld.calls ++ issued ++
          [.glfwCreateWindow 800 600 "T" monitor nullptr ret] ++ later }) ∧
      ret = sampleLibrary.glfwCreateWindow (emptyWorld.calls ++ issued) 800 600 "T" monitor
        nullptr ∧
      (issued ++ later).any isCreation = false ∧
      (issued ++ later).any onNullWindow = false) :=
  ⟨createWindow_returns_creation_result sampleLibrary emptyWorld 800 600 "T" 3
      (fun _ => by decide) (fun h => absurd h (by decide)),
    createWindow_returns_creation_result sampleLibrary emptyWorld 800 600 "T" 1
      (fun h => absurd h (by decide)) (fun _ => by decide)⟩


/-! ## Opacity and icon -/

/-- C8. `setWindowOpacity` first forwards the request to the library; it then returns
0 exactly when the requested opacity is not 1 and the opacity read back after the
request is 1, and 1 in every other case. A request of exactly 1 returns 1 without a
read-back, and a request of 0.5 returns 0 when the window is read back fully
opaque. -/
theorem setWindowOpacity_reports_ignored_request (lib : Library) (w : World) (window : Ptr)
    (opacity : Float32) :
    setWindowOpacity lib window opacity w =
      (.ok (if opacity ≠ float32One ∧
              lib.glfwGetWindowOpacity (w.calls ++ [.glfwSetWindowOpacity window opacity])
                window = float32One
            then 0 else 1),
        { w with calls := w.calls ++ [.glfwSetWindowOpacity window opacity] ++
            if opacity ≠ float32One then
              [.glfwGetWindowOpacity window
                (lib.glfwGetWindowOpacity (w.calls ++ [.glfwSetWindowOpacity window opacity])
                  window)]
            else [] }) ∧
    setWindowOpacity lib window float32One w =
      (.ok 1, { w with calls := w.calls ++ [.glfwSetWindowOpacity window float32One] }) ∧
    (setWindowOpacity lib window float32Half w).1 =
      .ok (if lib.glfwGetWindowOpacity (w.calls ++ [.glfwSetWindowOpacity window float32Half])
              window = float32One
            then 0 else 1) := by
  have main : ∀ o : Float32, setWindowOpacity lib window o w =
      (.ok (if o ≠ float32One ∧
              lib.glfwGetWindowOpacity (w.calls ++ [.glfwSetWindowOpacity window o])
                window = float32One
            then 0 else 1),
        { w with calls := w.calls ++ [.glfwSetWindowOpacity window o] ++
            if o ≠ float32One then
              [.glfwGetWindowOpacity window
                (lib.glfwGetWindowOpacity (w.calls ++ [.glfwSetWindowOpacity window o]) window)]
            else [] }) := by
    intro o
    simp only [setWindowOpacity, bind, pure, Exec.andThen, Exec.ret, glfwSetWindowOpacity,
      record]
    by_cases ho : o = float32One
    · simp [ho, Exec.ret]
    · by_cases hr : lib.glfwGetWindowOpacity (w.calls ++ [.glfwSetWindowOpacity window o])
          window = float32One
      · simp [ho, hr, glfwGetWindowOpacity, Exec.andThen, Exec.ret]
      · simp [ho, hr, glfwGetWindowOpacity, Exec.andThen, Exec.ret]
  refine ⟨main opacity, ?_, ?_⟩
  · rw [main float32One]
    simp
  · rw [main float32Half]
    have : float32Half ≠ float32One := by decide
    simp [this]

/-- C9. On Cocoa and on Wayland, `setWindowIcon` and `resetWindowIconToDefault` return
having only queried the platform: the world is unchanged but for these recorded
queries, and no icon call is made. On every other platform each makes, after two
platform queries, exactly one `glfwSetWindowIcon` call: `setWindowIcon` with the given
count and images, `resetWindowIconToDefault` with count 0 and no images. -/
theorem icon_calls_by_platform (lib : Library) (w : World) (window : Ptr) (arraySize : Int)
    (images : Ptr) :
    (lib.platform = GLFW_PLATFORM_COCOA ∨ lib.platform = GLFW_PLATFORM_WAYLAND →
      ∃ n : Nat,
        setWindowIcon lib window arraySize images w =
          (.ok (), { w with calls :=
            w.calls ++ List.replicate n (.glfwGetPlatform lib.platform) }) ∧
        resetWindowIconToDefault lib window w =
          (.ok (), { w with calls :=
            w.calls ++ List.replicate n (.glfwGetPlatform lib.platform) })) ∧
    (¬ (lib.platform = GLFW_PLATFORM_COCOA ∨ lib.platform = GLFW_PLATFORM_WAYLAND) →
      setWindowIcon lib window arraySize images w =
        (.ok (), { w with calls := w.calls ++
          [.glfwGetPlatform lib.platform, .glfwGetPlatform lib.platform,
           .glfwSetWindowIcon window arraySize images] }) ∧
      resetWindowIconToDefault lib window w =
        (.ok (), { w with calls := w.calls ++
          [.glfwGetPlatform lib.platform, .glfwGetPlatform lib.platform,
           .glfwSetWindowIcon window 0 nullptr] })) := by
  constructor
  · intro h
    by_cases hc : lib.platform = GLFW_PLATFORM_COCOA
    · refine ⟨1, ?_, ?_⟩ <;>
        simp [setWindowIcon, resetWindowIconToDefault, bind, pure, Exec.andThen, Exec.ret,
          glfwGetPlatform, hc]
    · have hw : lib.platform = GLFW_PLATFORM_WAYLAND := h.resolve_left hc
      have hc2 : ¬ GLFW_PLATFORM_WAYLAND = GLFW_PLATFORM_COCOA := by decide
      refine ⟨2, ?_, ?_⟩ <;>
        simp [setWindowIcon, resetWindowIconToDefault, bind, pure, Exec.andThen, Exec.ret,
          glfwGetPlatform, hw, hc2, List.replicate]
  · intro h
    have hc : ¬ lib.platform = GLFW_PLATFORM_COCOA := fun hc => h (Or.inl hc)
    have hw : ¬ lib.platform = GLFW_PLATFORM_WAYLAND := fun hw => h (Or.inr hw)
    constructor <;>
      simp [setWindowIcon, resetWindowIconToDefault, bind, pure, Exec.andThen, Exec.ret,
        glfwGetPlatform, glfwSetWindowIcon, record, hc, hw]

/-- Runs of C9 on Cocoa, on Wayland and on X11. -/
theorem icon_calls_by_platform_witness :
    (cocoaLibrary.platform = GLFW_PLATFORM_COCOA ∧
      ∃ n : Nat,
        setWindowIcon cocoaLibrary 6 2 40 emptyWorld =
          (.ok (), { emptyWorld with calls :=
            emptyWorld.calls ++ List.replicate n (.glfwGetPlatform cocoaLibrary.platform) }) ∧
        resetWindowIconToDefault cocoaLibrary 6 emptyWorld =
          (.ok (), { emptyWorld with calls :=
            emptyWorld.calls ++ List.replicate n (.glfwGetPlatform cocoaLibrary.platform) })) ∧
    (waylandLibrary.platform = GLFW_PLATFORM_WAYLAND ∧
      ∃ n : Nat,
        setWindowIcon waylandLibrary 6 2 40 emptyWorld =
          (.ok (), { emptyWorld with calls :=
            emptyWorld.calls ++ List.replicate n (.glfwGetPlatform waylandLibrary.platform) }) ∧
        resetWindowIconToDefault waylandLibrary 6 emptyWorld =
          (.ok (), { emptyWorld with calls :=
            emptyWorld.calls ++ List.replicate n (.glfwGetPlatform GLFW_PLATFORM_WAYLAND) })) ∧
    (¬ (sampleLibrary.platform = GLFW_PLATFORM_COCOA ∨
        sampleLibrary.platform = GLFW_PLATFORM_WAYLAND) ∧
      setWindowIcon sampleLibrary 6 2 40 emptyWorld =
        (.ok (), { emptyWorld with calls := emptyWorld.calls ++
          [.glfwGetPlatform sampleLibrary.platform, .glfwGetPlatform sampleLibrary.platform,
           .glfwSetWindowIcon 6 2 40] }) ∧
      resetWindowIconToDefault sampleLibrary 6 emptyWorld =
        (.ok (), { emptyWorld with calls := emptyWorld.calls ++
          [.glfwGetPlatform sampleLibrary.platform, .glfwGetPlatform sampleLibrary.platform,
           .glfwSetWindowIcon 6 0 nullptr] })) :=
  ⟨⟨rfl, (icon_calls_by_platform cocoaLibrary emptyWorld 6 2 40).1 (Or.inl rfl)⟩,
   ⟨rfl, (icon_calls_by_platform waylandLibrary emptyWorld 6 2 40).1 (Or.inr rfl)⟩,
   ⟨by decide, (icon_calls_by_platform sampleLibrary emptyWorld 6 2 40).2 (by decide)⟩⟩

/-! ## EGL context -/

/-- C7. `terminateEgl` makes exactly two calls, in this order: `eglDestroySurface` on
the given display and surface, then `eglDestroyContext` on the given display and
context. Nothing else changes: no other call is made (none on the display itself),
and memory and the `eglLastError` slot are as before. -/
theorem terminateEgl_calls (w : World) (display surface context : Ptr) :
    terminateEgl display surface context w =
      (.ok (), { w with calls := w.calls ++
        [.eglDestroySurface display surface, .eglDestroyContext display context] }) ∧
    (terminateEgl display surface context w).2.eglLastError = w.eglLastError ∧
    getEglLastError (terminateEgl display surface context w).2 =
      (.ok w.eglLastError, (terminateEgl display surface context w).2) := by
  refine ⟨?_, rfl, rfl⟩
  simp [terminateEgl, bind, Exec.andThen, eglDestroySurface, eglDestroyContext, record]


/-! ## Decoding and re-encoding the boolean hints -/

theorem decodeHints_encodeHints (h : WindowHints) : decodeHints (encodeHints h) = h := by
  rcases h with ⟨_ | _, _ | _, _ | _, _ | _, _ | _, _ | _, _ | _⟩ <;> rfl

theorem decodeHints_eq_bits (f : Int) :
    decodeHints f = ⟨f.testBit 3, f.testBit 4, f.testBit 5, f.testBit 6, f.testBit 7,
      f.testBit 8, f.testBit 9⟩ := by
  have key : ∀ (c : Int) (k : Nat), c = ((2 ^ k : Nat) : Int) →
      decide (Int.land f c ≠ 0) = f.testBit k := by
    intro c k hc
    cases hb : f.testBit k
    · exact decide_eq_false (fun h => by
        have := (land_bit_ne_zero f c k hc).1 h
        rw [hb] at this
        exact absurd this (by decide))
    · exact decide_eq_true ((land_bit_ne_zero f c k hc).2 hb)
  simp only [decodeHints, key WINDOW_HINT_RESIZABLE 3 rfl, key WINDOW_HINT_VISIBLE 4 rfl,
    key WINDOW_HINT_DECORATED 5 rfl, key WINDOW_HINT_DPI_AWARE 6 rfl,
    key WINDOW_HINT_FOCUSED 7 rfl, key WINDOW_HINT_ALWAYS_ON_TOP 8 rfl,
    key WINDOW_TRANSPARENT_FRAMEBUFFER 9 rfl]

theorem testBit_hint_mask (i : Nat) :
    Int.testBit 0b1111111000 i = decide (3 ≤ i ∧ i ≤ 9) := by
  show Nat.testBit 1016 i = _
  by_cases h : i ≤ 9
  · interval_cases i <;> rfl
  · have hlt : 1016 < 2 ^ i :=
      lt_of_lt_of_le (by decide : 1016 < 2 ^ 10) (Nat.pow_le_pow_right (by decide) (by omega))
    rw [Nat.testBit_lt_two_pow hlt]
    simp [h]

theorem testBit_cond_two_pow (b : Bool) (k i : Nat) :
    Int.testBit (if b = true then (2 : Int) ^ k else 0) i = (b && decide (k = i)) := by
  cases b
  · show Nat.testBit 0 i = _
    simp
  · have h2 : ((2 : Int) ^ k) = ((2 ^ k : Nat) : Int) := by push_cast; rfl
    simp only [if_true, h2, testBit_two_pow_int, Bool.true_and]

theorem encodeHints_decodeHints (f : Int) :
    encodeHints (decodeHints f) = Int.land f 0b1111111000 := by
  apply int_eq_of_testBit_eq
  intro i
  rw [decodeHints_eq_bits, Int.testBit_land, testBit_hint_mask]
  simp only [encodeHints, Int.testBit_lor, testBit_cond_two_pow]
  by_cases h : 3 ≤ i ∧ i ≤ 9
  · obtain ⟨h3, h9⟩ := h
    interval_cases i <;> simp
  · have h' : ∀ k, 3 ≤ k → k ≤ 9 → ¬ k = i := fun k hk3 hk9 hki => h (hki ▸ ⟨hk3, hk9⟩)
    simp [h, h' 3, h' 4, h' 5, h' 6, h' 7, h' 8, h' 9]


/-- The hints of `createWindow`, from the decoded hints. -/
theorem hintCalls_eq_decodeHints (monitor : Ptr) (windowFlags : Int) :
    hintCalls monitor windowFlags =
      [.glfwGetPrimaryMonitor monitor,
       .glfwWindowHint .CLIENT_API GLFW_NO_API,
       .glfwWindowHint .STEREO GLFW_FALSE,
       .glfwWindowHint .COCOA_GRAPHICS_SWITCHING GLFW_TRUE,
       .glfwWindowHint .COCOA_RETINA_FRAMEBUFFER GLFW_TRUE,
       .glfwWindowHint .FOCUS_ON_SHOW GLFW_TRUE,
       .glfwWindowHint .RESIZABLE
         (if (decodeHints windowFlags).resizable then GLFW_TRUE else GLFW_FALSE),
       .glfwWindowHint .VISIBLE
         (if (decodeHints windowFlags).visible then GLFW_TRUE else GLFW_FALSE),
       .glfwWindowHint .DECORATED
         (if (decodeHints windowFlags).decorated then GLFW_TRUE else GLFW_FALSE),
       .glfwWindowHint .SCALE_TO_MONITOR
         (if (decodeHints windowFlags).dpiAware then GLFW_TRUE else GLFW_FALSE),
       .glfwWindowHint .FOCUSED
         (if (decodeHints windowFlags).focused then GLFW_TRUE else GLFW_FALSE),
       .glfwWindowHint .FLOATING
         (if (decodeHints windowFlags).alwaysOnTop then GLFW_TRUE else GLFW_FALSE),
       .glfwWindowHint .TRANSPARENT_FRAMEBUFFER
         (if (decodeHints windowFlags).transparentFramebuffer then GLFW_TRUE
          else GLFW_FALSE)] := by
  simp [hintCalls, decodeHints]

/-- C10. Decoding the seven boolean hints as `createWindow` does and re-encoding them
at bits 3 to 9 is idempotent: the re-encoded bitmask is `windowFlags` with every bit
outside 3..9 cleared, decoding it yields the same hints, and re-encoding again yields
the same bitmask. The decoded hints are the values `createWindow` passes to the
library, and its whole run is fixed by the decoded hints and the decoded presentation
mode. The decoded hints depend on bits 3..9 only, hence not on the presentation-mode
bits 0..2, and the decoded presentation mode depends on bits 0..2 only, hence not on
bits 3..9. -/
theorem decode_encode_hints_idempotent (lib : Library) (w : World) (width height : Int)
    (title : String) (windowFlags : Int) :
    encodeHints (decodeHints windowFlags) = Int.land windowFlags 0b1111111000 ∧
    decodeHints (encodeHints (decodeHints windowFlags)) = decodeHints windowFlags ∧
    encodeHints (decodeHints (encodeHints (decodeHints windowFlags))) =
      encodeHints (decodeHints windowFlags) ∧
    (∃ tail : List Call,
      (createWindow lib width height title windowFlags w).2.calls =
        w.calls ++
        [.glfwGetPrimaryMonitor (lib.glfwGetPrimaryMonitor w.calls),
         .glfwWindowHint .CLIENT_API GLFW_NO_API,
         .glfwWindowHint .STEREO GLFW_FALSE,
         .glfwWindowHint .COCOA_GRAPHICS_SWITCHING GLFW_TRUE,
         .glfwWindowHint .COCOA_RETINA_FRAMEBUFFER GLFW_TRUE,
         .glfwWindowHint .FOCUS_ON_SHOW GLFW_TRUE,
         .glfwWindowHint .RESIZABLE
           (if (decodeHints windowFlags).resizable then GLFW_TRUE else GLFW_FALSE),
         .glfwWindowHint .VISIBLE
           (if (decodeHints windowFlags).visible then GLFW_TRUE else GLFW_FALSE),
         .glfwWindowHint .DECORATED
           (if (decodeHints windowFlags).decorated then GLFW_TRUE else GLFW_FALSE),
         .glfwWindowHint .SCALE_TO_MONITOR
           (if (decodeHints windowFlags).dpiAware then GLFW_TRUE else GLFW_FALSE),
         .glfwWindowHint .FOCUSED
           (if (decodeHints windowFlags).focused then GLFW_TRUE else GLFW_FALSE),
         .glfwWindowHint .FLOATING
           (if (decodeHints windowFlags).alwaysOnTop then GLFW_TRUE else GLFW_FALSE),
         .glfwWindowHint .TRANSPARENT_FRAMEBUFFER
           (if (decodeHints windowFlags).transparentFramebuffer then GLFW_TRUE
            else GLFW_FALSE)] ++ tail) ∧
    (∀ other : Int, decodeHints other = decodeHints windowFlags →
      decodeWindowMode other = decodeWindowMode windowFlags →
      createWindow lib width height title other w =
        createWindow lib width height title windowFlags w) ∧
    (∀ other : Int, (∀ i, 3 ≤ i → i ≤ 9 → other.testBit i = windowFlags.testBit i) →
      decodeHints other = decodeHints windowFlags) ∧
    (∀ other : Int, (∀ i, i < 3 → other.testBit i = windowFlags.testBit i) →
      decodeWindowMode other = decodeWindowMode windowFlags) := by
  refine ⟨encodeHints_decodeHints windowFlags, decodeHints_encodeHints _, ?_, ?_, ?_, ?_, ?_⟩
  · rw [decodeHints_encodeHints]
  · obtain ⟨tail, hcalls, _⟩ := createWindow_calls lib w width height title windowFlags
    rw [hintCalls_eq_decodeHints] at hcalls
    exact ⟨tail, hcalls⟩
  · intro other hhints hmode
    have hh : ∀ monitor, hintCalls monitor other = hintCalls monitor windowFlags := by
      intro monitor
      rw [hintCalls_eq_decodeHints, hintCalls_eq_decodeHints, hhints]
    have hm : Int.land other 0b111 % 256 = Int.land windowFlags 0b111 % 256 := hmode
    rw [createWindow_eq, createWindow_eq]
    simp only [hh, hm]
  · intro other h
    rw [decodeHints_eq_bits, decodeHints_eq_bits, h 3 (by decide) (by decide),
      h 4 (by decide) (by decide), h 5 (by decide) (by decide), h 6 (by decide) (by decide),
      h 7 (by decide) (by decide), h 8 (by decide) (by decide), h 9 (by decide) (by decide)]
  · intro other h
    have hland : Int.land other 0b111 = Int.land windowFlags 0b111 := by
      apply int_eq_of_testBit_eq
      intro i
      rw [Int.testBit_land, Int.testBit_land, testBit_seven]
      by_cases hi : i < 3
      · rw [h i hi]
      · simp [hi]
    unfold decodeWindowMode
    rw [hland]

/-- C10 at flags 13 (mode 5, resizable): flags 8 agree with them on bits 3..9 and
decode to the same hints, flags 1021 agree with them on bits 0..2 and decode to the
same mode, flags 1037 decode to the hints and the mode of flags 13 and give the same
run, and the re-encoded hints are 8. -/
theorem decode_encode_hints_idempotent_witness :
    (∀ i, 3 ≤ i → i ≤ 9 → Int.testBit 8 i = Int.testBit 13 i) ∧
    decodeHints 8 = decodeHints 13 ∧
    (∀ i, i < 3 → Int.testBit 1021 i = Int.testBit 13 i) ∧
    decodeWindowMode 1021 = decodeWindowMode 13 ∧
    decodeHints (13 + 1024) = decodeHints 13 ∧
    decodeWindowMode (13 + 1024) = decodeWindowMode 13 ∧
    createWindow sampleLibrary 800 600 "T" (13 + 1024) emptyWorld =
      createWindow sampleLibrary 800 600 "T" 13 emptyWorld ∧
    encodeHints (decodeHints 13) = Int.land 13 0b1111111000 ∧
    Int.land 13 0b1111111000 = 8 :=
  have h8 : ∀ i, 3 ≤ i → i ≤ 9 → Int.testBit 8 i = Int.testBit 13 i := by
    intro i h3 h9
    interval_cases i <;> rfl
  have h1021 : ∀ i, i < 3 → Int.testBit 1021 i = Int.testBit 13 i := by
    intro i h3
    interval_cases i <;> rfl
  have hthm := decode_encode_hints_idempotent sampleLibrary emptyWorld 800 600 "T" 13
  ⟨h8, hthm.2.2.2.2.2.1 8 h8, h1021, hthm.2.2.2.2.2.2 1021 h1021,
    by decide, by decide, hthm.2.2.2.2.1 (13 + 1024) (by decide) (by decide),
    hthm.1, by decide⟩

/-! ## `setupEgl` on concrete libraries -/

/-- C3: the code at a failing input. On X11 no native handle is resolved and window-surface
creation yields `EGL_NO_SURFACE`; `setupEgl` stores it, compares the pointer parameter
`surface` (address 300) instead of the stored handle with `EGL_NO_SURFACE`, goes on to
`eglMakeCurrent` and returns 1. -/
theorem setupEgl_null_native_handle_reaches_make_current :
    (getNativeWindowHandle noSurfaceLibrary 6 emptyWorld).1 = .ok nullptr ∧
    (setupEgl noSurfaceLibrary 0 100 200 300 6 emptyWorld).1 = .ok 1 ∧
    (setupEgl noSurfaceLibrary 0 100 200 300 6 emptyWorld).2.mem 300 = EGL_NO_SURFACE ∧
    (setupEgl noSurfaceLibrary 0 100 200 300 6 emptyWorld).2.calls =
      [.eglGetPlatformDisplay .PLATFORM_ANGLE_ANGLE EGL_DEFAULT_DISPLAY
         [.PLATFORM_ANGLE_TYPE_ANGLE, .PLATFORM_ANGLE_TYPE_DEFAULT_ANGLE,
          .PLATFORM_ANGLE_MAX_VERSION_MAJOR_ANGLE, .num 1,
          .PLATFORM_ANGLE_MAX_VERSION_MINOR_ANGLE, .num 1, .NONE] 7,
       .eglInitialize 200 nullptr nullptr true,
       .eglChooseConfig 200
         [.SURFACE_TYPE, .WINDOW_BIT, .RENDERABLE_TYPE, .OPENGL_ES2_BIT, .NONE] 1 true 3 1,
       .eglCreateContext 200 3 EGL_NO_CONTEXT [.CONTEXT_CLIENT_VERSION, .num 2, .NONE] 8,
       .glfwGetPlatform GLFW_PLATFORM_X11,
       .eglCreateWindowSurface 200 3 nullptr nullptr EGL_NO_SURFACE,
       .eglMakeCurrent 200 300 300 100 true] := by
  refine ⟨rfl, rfl, rfl, rfl⟩

/-- C4: the code at a failing input. Display acquisition yields `EGL_NO_DISPLAY`;
`setupEgl` stores it, compares the pointer parameter `display` (address 200) instead
of the stored handle with `EGL_NO_DISPLAY`, performs all five later sub-steps and
returns 1. -/
theorem setupEgl_no_display_is_not_detected :
    (setupEgl noDisplayLibrary 0 100 200 300 6 emptyWorld).1 = .ok 1 ∧
    (setupEgl noDisplayLibrary 0 100 200 300 6 emptyWorld).2.mem 200 = EGL_NO_DISPLAY ∧
    (setupEgl noDisplayLibrary 0 100 200 300 6 emptyWorld).2.calls =
      [.eglGetPlatformDisplay .PLATFORM_ANGLE_ANGLE EGL_DEFAULT_DISPLAY
         [.PLATFORM_ANGLE_TYPE_ANGLE, .PLATFORM_ANGLE_TYPE_DEFAULT_ANGLE,
          .PLATFORM_ANGLE_MAX_VERSION_MAJOR_ANGLE, .num 1,
          .PLATFORM_ANGLE_MAX_VERSION_MINOR_ANGLE, .num 1, .NONE] EGL_NO_DISPLAY,
       .eglInitialize 200 nullptr nullptr true,
       .eglChooseConfig 200
         [.SURFACE_TYPE, .WINDOW_BIT, .RENDERABLE_TYPE, .OPENGL_ES2_BIT, .NONE] 1 true 3 1,
       .eglCreateContext 200 3 EGL_NO_CONTEXT [.CONTEXT_CLIENT_VERSION, .num 2, .NONE] 8,
       .glfwGetPlatform GLFW_PLATFORM_X11,
       .eglCreateWindowSurface 200 3 nullptr nullptr 9,
       .eglMakeCurrent 200 300 300 100 true] := by
  refine ⟨rfl, rfl, rfl⟩

/-- C5: the code at a failing input. Every sub-step succeeds, `setupEgl` returns 1 and
the out-parameters hold display 7, context 8 and surface 9; but the display handed to
`eglInitialize`, `eglChooseConfig`, `eglCreateContext`, `eglCreateWindowSurface` and
`eglMakeCurrent` is the pointer parameter 200, not the handle 7, and `eglMakeCurrent`
gets the pointer parameters 300, 300 and 100 for the surfaces and the context, not
the handles 9, 9 and 8. -/
theorem setupEgl_passes_parameter_addresses :
    (setupEgl sampleLibrary 0 100 200 300 6 emptyWorld).1 = .ok 1 ∧
    (setupEgl sampleLibrary 0 100 200 300 6 emptyWorld).2.mem 200 = 7 ∧
    (setupEgl sampleLibrary 0 100 200 300 6 emptyWorld).2.mem 100 = 8 ∧
    (setupEgl sampleLibrary 0 100 200 300 6 emptyWorld).2.mem 300 = 9 ∧
    (setupEgl sampleLibrary 0 100 200 300 6 emptyWorld).2.calls =
      [.eglGetPlatformDisplay .PLATFORM_ANGLE_ANGLE EGL_DEFAULT_DISPLAY
         [.PLATFORM_ANGLE_TYPE_ANGLE, .PLATFORM_ANGLE_TYPE_DEFAULT_ANGLE,
          .PLATFORM_ANGLE_MAX_VERSION_MAJOR_ANGLE, .num 1,
          .PLATFORM_ANGLE_MAX_VERSION_MINOR_ANGLE, .num 1, .NONE] 7,
       .eglInitialize 200 nullptr nullptr true,
       .eglChooseConfig 200
         [.SURFACE_TYPE, .WINDOW_BIT, .RENDERABLE_TYPE, .OPENGL_ES2_BIT, .NONE] 1 true 3 1,
       .eglCreateContext 200 3 EGL_NO_CONTEXT [.CONTEXT_CLIENT_VERSION, .num 2, .NONE] 8,
       .glfwGetPlatform GLFW_PLATFORM_X11,
       .eglCreateWindowSurface 200 3 nullptr nullptr 9,
       .eglMakeCurrent 200 300 300 100 true] := by
  refine ⟨rfl, rfl, rfl, rfl, rfl⟩

end CatUI
